import Mathlib

/-!
Verification of the request-governance and orchestration layer of the
LocalLifeAssistant public API.

The development shallowly embeds the two source modules that carry the
behaviour under scrutiny:

* `backend/app/api/public/rate_limiter.py` — the fixed-window rate limiter
  (`RateLimiter.check_rate_limit`, `RateLimiter._cleanup_old_requests`);
* `backend/app/api/public/router.py` — the `/api/public/chat` endpoint
  (`public_chat`), its pydantic request model, and the orchestration
  pipeline stages it runs.

Timestamps are modelled by `Int` (a discrete clock), cache ages by `ℚ`.
External collaborators (conversation storage, usage tracker, extraction,
cache manager, search) are not part of the source tree; they appear as an
abstract record of functions `Services`, and every theorem quantifies over
them.  Side effects of the endpoint (transcript writes, conversation
creation, usage increments, corpus fetches, search invocations) are
recorded in an explicit effect trace.
-/

namespace LocalLife

/-! ## Rate limiter (`rate_limiter.py`) -/

/-- State of `RateLimiter`: the configuration plus the per-identity store
`self._requests : {user_id: [(timestamp, count), ...]}` (a `defaultdict`
whose absent entries read as `[]`). -/
structure RateLimiter where
  max_requests : Nat
  window_seconds : Int
  requests : String → List (Int × Nat)

/-- Info dictionary returned by `check_rate_limit`. -/
structure RateLimitInfo where
  limit : Nat
  remaining : Nat
  reset : Int
deriving DecidableEq, Repr

/-- `RateLimiter._cleanup_old_requests`: keep only the events with
`ts > current_time - window_seconds`. -/
def cleanup_old_requests (rl : RateLimiter) (user_id : String) (current_time : Int) :
    RateLimiter :=
  { rl with
    requests := Function.update rl.requests user_id
      ((rl.requests user_id).filter (fun e => decide (current_time - rl.window_seconds < e.1))) }

/-- `RateLimiter.check_rate_limit`: purge, count, compute the info
dictionary, and append `(current_time, 1)` when allowed. -/
def check_rate_limit (rl : RateLimiter) (user_id : String) (current_time : Int) :
    Bool × RateLimitInfo × RateLimiter :=
  let rl1 := cleanup_old_requests rl user_id current_time
  let reqs := rl1.requests user_id
  let current_count := (reqs.map Prod.snd).sum
  let reset_time : Int :=
    match (reqs.map Prod.fst).min? with
    | some oldest => oldest + rl.window_seconds
    | none => current_time + rl.window_seconds
  let is_allowed := decide (current_count < rl.max_requests)
  let remaining := rl.max_requests - current_count
  let info : RateLimitInfo := ⟨rl.max_requests, remaining, reset_time⟩
  let rl2 :=
    if is_allowed then
      { rl1 with
        requests := Function.update rl1.requests user_id
          (rl1.requests user_id ++ [(current_time, 1)]) }
    else rl1
  (is_allowed, info, rl2)

/-- Iterate `check_rate_limit` for one identity over a list of call times. -/
def run_calls (rl : RateLimiter) (user_id : String) : List Int → RateLimiter
  | [] => rl
  | t :: ts => run_calls (check_rate_limit rl user_id t).2.2 user_id ts

/-! ## Router data model (`router.py`)

Python truthiness of the optional strings and lists the endpoint branches
on is made explicit (`None` and `""`/`[]` are falsy). -/

/-- Truthiness of a Python `Optional[str]`. -/
def pyOptStrTruthy : Option String → Bool
  | none => false
  | some s => !(s == (""))

/-- Truthiness of a Python optional list. -/
def pyListTruthy {α : Type} : Option (List α) → Bool
  | none => false
  | some l => !l.isEmpty

/-- Python `str.lower()`. -/
def py_lower (s : String) : String := String.mk (s.data.map Char.toLower)

/-- Is `pre` a prefix of the character list `s`? -/
def py_startswith_chars : List Char → List Char → Bool
  | [], _ => true
  | _ :: _, [] => false
  | p :: ps, c :: cs => p = c && py_startswith_chars ps cs

/-- Python `s.startswith(pre)`. -/
def py_startswith (s pre : String) : Bool :=
  py_startswith_chars pre.data s.data

/-- Helper for `str.title()`: the flag records whether the previous
character was alphabetic. -/
def pyTitleAux : Bool → List Char → List Char
  | _, [] => []
  | prev, c :: cs =>
    if c.isAlpha then
      (if prev then c.toLower else c.toUpper) :: pyTitleAux true cs
    else c :: pyTitleAux false cs

/-- Python `str.title()`. -/
def pyTitle (s : String) : String := String.mk (pyTitleAux false s.data)

/-- Usage snapshot returned by the usage tracker (a Python dict). -/
abbrev UsageStats := List (String × Nat)

/-- A stored conversation document; `user_id` is `conversation.get("user_id")`. -/
structure Conversation where
  user_id : Option String
deriving DecidableEq

/-- `UserPreferences` pydantic model from the extraction service. -/
structure UserPreferences where
  location : Option String
  date : Option String
  time : Option String
  event_type : Option String
deriving DecidableEq

/-- An event dict from the corpus; only the keys the endpoint reads. -/
structure Event where
  title : Option String
  relevance_score : Option ℚ
deriving DecidableEq

/-- A formatted recommendation entry (router `Step 7`). -/
structure Recommendation where
  rec_type : String
  event : Event
  source : String
  relevance_score : ℚ
  explanation : String
deriving DecidableEq

/-- A message dict passed to `conversation_storage.save_message`. -/
structure StoredMessage where
  role : String
  content : String
  timestamp : String
  recommendations : Option (List Recommendation)
  extracted_preferences : Option UserPreferences
  cache_used : Option Bool
  cache_age_hours : Option ℚ
deriving DecidableEq

/-- Observable side effects of one request. -/
inductive Effect where
  | increment_usage (user_id : String)
  | create_conversation (user_id : String) (llm_provider : String)
  | save_message (user_id : String) (conversation_id : String) (msg : StoredMessage)
  | fetch_events (city : String)
  | search_events (query : String)
  | update_metadata (user_id : String) (conversation_id : String)
deriving DecidableEq

/-- The external collaborators of `router.py` (conversation storage, usage
tracker, extraction service, cache manager, event crawler, search service),
given by their interfaces; `get_conversation` may raise, modelled by
`Except`. -/
structure Services where
  get_conversation : String → String → Except Unit (Option Conversation)
  check_trial_limit : String → Bool
  trial_limit : Nat
  get_usage : String → UsageStats
  increment_usage : String → UsageStats
  create_conversation : String → String
  extract_user_preferences : String → UserPreferences
  extract_location_from_query : String → Option String
  supported_cities : List String
  get_cached_events : String → Option (List Event)
  get_cache_age : String → Option ℚ
  intelligent_event_search : String → List Event → Option UserPreferences → List Event
  now_iso : String

/-- Pydantic `ChatRequest`. -/
structure ChatRequest where
  message : String
  conversation_history : List (List (String × String))
  llm_provider : String
  user_preferences : Option UserPreferences
  is_initial_response : Bool
  conversation_id : Option String
deriving DecidableEq

/-- Pydantic `ChatResponse`. -/
structure ChatResponse where
  message : String
  recommendations : List Recommendation
  llm_provider_used : String
  cache_used : Bool
  cache_age_hours : Option ℚ
  extracted_preferences : Option UserPreferences
  extraction_summary : Option String
  usage_stats : Option UsageStats
  trial_exceeded : Bool
  conversation_id : String
deriving DecidableEq

/-- Outcome of the endpoint: a 200 response or an `HTTPException`. -/
inductive ChatResult where
  | ok (resp : ChatResponse)
  | httpError (status : Nat) (detail : String)
deriving DecidableEq

/-- Pydantic validation of `ChatRequest`: `message` is a required field
(no default), every other field has a default.  `None` marks a field
absent from the request body. -/
def parse_chat_request (message : Option String)
    (conversation_history : Option (List (List (String × String))))
    (llm_provider : Option String)
    (user_preferences : Option (Option UserPreferences))
    (is_initial_response : Option Bool)
    (conversation_id : Option (Option String)) : Except String ChatRequest :=
  match message with
  | none => Except.error ("field required: message")
  | some m =>
    Except.ok
      { message := m
        conversation_history := conversation_history.getD []
        llm_provider := llm_provider.getD ("openai")
        user_preferences := user_preferences.getD none
        is_initial_response := is_initial_response.getD false
        conversation_id := conversation_id.getD none }

/-! ## Router pipeline stages (`public_chat`) -/

def not_found_detail : String := ("Conversation not found")

def forbidden_detail : String :=
  ("You do not have permission to access this conversation")

/-- Lines 80–107 of `router.py`: the ownership check.  Returns
`some (status, detail)` when the turn terminates with an `HTTPException`,
`none` when the pipeline proceeds.  The surrounding `try` re-raises
`HTTPException`s and maps any other exception to 404. -/
def check_ownership (sv : Services) (user_id : String)
    (conversation_id : Option String) : Option (Nat × String) :=
  if pyOptStrTruthy conversation_id = true then
    match sv.get_conversation user_id (conversation_id.getD ("")) with
    | Except.error _ => some (404, not_found_detail)
    | Except.ok none => some (404, not_found_detail)
    | Except.ok (some conv) =>
      match conv.user_id with
      | some owner =>
        if owner ≠ ("") ∧ owner ≠ user_id then some (403, forbidden_detail)
        else none
      | none => none
  else none

/-- `user_id.startswith("user_")` — the ephemeral ("anonymous") identity
naming convention. -/
def anonymous_user (user_id : String) : Bool := py_startswith user_id ("user_")

/-- Lines 113–124: the fixed trial-limit message. -/
def trial_limit_message (trial_limit : Nat) : String :=
  ("🔒 You\x27ve reached your free trial limit of ") ++ toString trial_limit
    ++ (" interactions! Please register to continue using our service and keep your conversation history.")

/-- Lines 126–130: increment usage for anonymous users. -/
def usage_effects (sv : Services) (user_id : String) :
    Option UsageStats × List Effect :=
  if anonymous_user user_id = true then
    (some (sv.increment_usage user_id), [Effect.increment_usage user_id])
  else (none, [])

/-- Lines 132–137: resolve or create the conversation id. -/
def materialize_conversation (sv : Services) (user_id : String)
    (conversation_id : Option String) (llm_provider : String) :
    String × List Effect :=
  if pyOptStrTruthy conversation_id = true then (conversation_id.getD (""), [])
  else (sv.create_conversation user_id,
        [Effect.create_conversation user_id llm_provider])

/-- Lines 139–144: the user message saved at stage entry. -/
def user_message (sv : Services) (req : ChatRequest) : StoredMessage :=
  { role := ("user"), content := req.message, timestamp := sv.now_iso,
    recommendations := none, extracted_preferences := none,
    cache_used := none, cache_age_hours := none }

/-- Lines 146–151: preference extraction, only on an initial turn. -/
def extract_prefs_stage (sv : Services) (req : ChatRequest) :
    Option UserPreferences :=
  if req.is_initial_response = true then
    some (sv.extract_user_preferences req.message)
  else none

/-- The extracted location when it is truthy and not the `"none"`
sentinel (line 158). -/
def pref_location_truthy (p : UserPreferences) : Option String :=
  match p.location with
  | some loc => if loc ≠ ("") ∧ loc ≠ ("none") then some loc else none
  | none => none

/-- Lines 153–169: city resolution with its priority order.  Returns
`(city, location_provided)`. -/
def resolve_city (prefs : Option UserPreferences) (query_city : Option String) :
    Option String × Bool :=
  match prefs.bind pref_location_truthy with
  | some loc => (some (py_lower loc), true)
  | none =>
    match query_city with
    | some q => if q ≠ ("") then (some (py_lower q), true) else (none, false)
    | none => (none, false)

/-- Python `c.replace('_', ' ')` (single-character pattern). -/
def replace_underscores (s : String) : String :=
  String.mk (s.data.map (fun ch => if ch = ('_' : Char) then (' ' : Char) else ch))

/-- Lines 174–182: the clarifying question listing supported cities. -/
def clarifying_message (cities : List String) : String :=
  let formatted := cities.map (fun c => pyTitle (replace_underscores c))
  let cities_list := String.intercalate (", ") formatted
  ("I\x27d be happy to help you find events! To give you the best recommendations, could you please tell me which city or area you\x27re interested in? (e.g., ")
    ++ cities_list ++ (", or a zipcode)")

/-- The detail of the 500 raised by the outer `except Exception` handler
(lines 315–320) when line 208's log formatting crashes: the f-string
`f"... (age: {cache_age_hours:.1f}h)"` raises
`TypeError: unsupported format string passed to NoneType.__format__`
whenever `cached_events` is truthy and `cache_age_hours` is `None`. -/
def internal_error_detail : String :=
  ("Error processing chat request: unsupported format string passed to NoneType.__format__")

/-- Lines 203–215: corpus acquisition.  Returns
`(events, cache_used, cache_age_hours)`, or an error when the turn
crashes: with truthy cached events, line 208 formats `cache_age_hours`
with `:.1f` before the `None`-guard on line 210 ever runs, so a `None`
age raises `TypeError` there (mapped to a 500 by the outer handler). -/
def acquire_corpus (sv : Services) (city : String) :
    Except Unit (List Event × Bool × Option ℚ) :=
  let cached_events := sv.get_cached_events city
  let age := sv.get_cache_age city
  if pyListTruthy cached_events = true then
    match age with
    | none => Except.error ()
    | some a => Except.ok (cached_events.getD [], decide (0 < a), some a)
  else Except.ok ([], false, none)

/-- Lines 237–248: one formatted recommendation. -/
def format_recommendation (cache_used : Bool) (city : String) (e : Event) :
    Recommendation :=
  { rec_type := ("event")
    event := e
    source := if cache_used = true then ("cached") else ("realtime")
    relevance_score := e.relevance_score.getD (1/2 : ℚ)
    explanation := ("Event in ") ++ pyTitle city ++ (": ")
      ++ e.title.getD ("Unknown Event") }

/-- Lines 250–253: the defaulted-location note. -/
def default_location_note : String :=
  (" (I couldn\x27t determine your location, so I\x27m defaulting to New York)")

/-- Lines 255–265: the summary message. -/
def response_message (num_events : Nat) (city : String) (location_note : String) :
    String :=
  if num_events ≠ 0 then
    ("🎉 Found ") ++ toString num_events ++ (" events in ") ++ pyTitle city
      ++ (" that match your search!") ++ location_note
      ++ (" Check out the recommendations below ↓")
  else
    ("😔 I couldn\x27t find any events in ") ++ pyTitle city
      ++ (" matching your query.") ++ location_note
      ++ (" Try asking about \x27fashion events\x27, \x27music concerts\x27, \x27halloween parties\x27, or \x27free events\x27.")

/-- Truthiness-and-not-`"none"` test used by the extraction summary
(lines 271–278). -/
def field_truthy_not_none (f : Option String) : Bool :=
  match f with
  | some s => !(s == ("")) && !(s == ("none"))
  | none => false

/-- Lines 267–281: the extraction summary. -/
def extraction_summary_of (p : UserPreferences) : Option String :=
  let parts :=
    (if field_truthy_not_none p.location = true then
      [("📍 ") ++ p.location.getD ("")] else [])
    ++ (if field_truthy_not_none p.date = true then
      [("📅 ") ++ p.date.getD ("")] else [])
    ++ (if field_truthy_not_none p.time = true then
      [("🕐 ") ++ p.time.getD ("")] else [])
    ++ (if field_truthy_not_none p.event_type = true then
      [("🎭 ") ++ p.event_type.getD ("")] else [])
  if parts.isEmpty = true then none else some (String.intercalate (" • ") parts)

/-- Lines 283–292: the assistant message saved at the end of the turn. -/
def assistant_message (sv : Services) (content : String)
    (recs : List Recommendation) (prefs : Option UserPreferences)
    (cache_used : Bool) (age : Option ℚ) : StoredMessage :=
  { role := ("assistant"), content := content, timestamp := sv.now_iso,
    recommendations := some recs, extracted_preferences := prefs,
    cache_used := some cache_used, cache_age_hours := age }

/-- Steps 5–9 of the pipeline (lines 203–310), reached when the turn was
not terminated by the clarifying question.  When line 208 crashes on a
`None` cache age with truthy cached events, the outer handler turns the
`TypeError` into a 500; the corpus fetch has already happened, and neither
the search nor any further transcript write occurs. -/
def main_stage (sv : Services) (user_id : String) (req : ChatRequest)
    (conversation_id : String) (usage_stats : Option UsageStats)
    (extracted_preferences : Option UserPreferences)
    (city : Option String) (location_provided : Bool) :
    ChatResult × List Effect :=
  let cityF := city.getD ("new york")
  match acquire_corpus sv cityF with
  | Except.error _ =>
    (ChatResult.httpError 500 internal_error_detail,
     [Effect.fetch_events cityF])
  | Except.ok corpus =>
    let top_events := sv.intelligent_event_search req.message corpus.1
      extracted_preferences
    let recommendations := top_events.map (format_recommendation corpus.2.1 cityF)
    let location_note :=
      if location_provided = false ∧ cityF = ("new york") then
        default_location_note
      else ("")
    let msg := response_message top_events.length cityF location_note
    let amsg := assistant_message sv msg recommendations extracted_preferences
      corpus.2.1 corpus.2.2
    (ChatResult.ok
      { message := msg
        recommendations := recommendations
        llm_provider_used := req.llm_provider
        cache_used := corpus.2.1
        cache_age_hours := corpus.2.2
        extracted_preferences := extracted_preferences
        extraction_summary := extracted_preferences.bind extraction_summary_of
        usage_stats := usage_stats
        trial_exceeded := false
        conversation_id := conversation_id },
     [Effect.fetch_events cityF, Effect.search_events req.message,
      Effect.save_message user_id conversation_id amsg,
      Effect.update_metadata user_id conversation_id])

/-- Lines 126–310: the pipeline after the ownership check and the trial
gate. -/
def after_trial (sv : Services) (user_id : String) (req : ChatRequest) :
    ChatResult × List Effect :=
  let us := usage_effects sv user_id
  let mc := materialize_conversation sv user_id req.conversation_id
    req.llm_provider
  let pre_effects := us.2 ++ mc.2
    ++ [Effect.save_message user_id mc.1 (user_message sv req)]
  let extracted_preferences := extract_prefs_stage sv req
  let rc := resolve_city extracted_preferences
    (sv.extract_location_from_query req.message)
  if req.is_initial_response = true ∧ rc.2 = false then
    (ChatResult.ok
      { message := clarifying_message sv.supported_cities
        recommendations := []
        llm_provider_used := req.llm_provider
        cache_used := false
        cache_age_hours := none
        extracted_preferences := extracted_preferences
        extraction_summary := none
        usage_stats := none
        trial_exceeded := false
        conversation_id := mc.1 }, pre_effects)
  else
    let m := main_stage sv user_id req mc.1 us.1 extracted_preferences rc.1 rc.2
    (m.1, pre_effects ++ m.2)

/-- The body of the `public_chat` endpoint handler, after authentication
and rate limiting admitted the request. -/
def public_chat (sv : Services) (user_id : String) (req : ChatRequest) :
    ChatResult × List Effect :=
  match check_ownership sv user_id req.conversation_id with
  | some sd => (ChatResult.httpError sd.1 sd.2, [])
  | none =>
    if anonymous_user user_id = true ∧ sv.check_trial_limit user_id = true then
      (ChatResult.ok
        { message := trial_limit_message sv.trial_limit
          recommendations := []
          llm_provider_used := req.llm_provider
          cache_used := false
          cache_age_hours := none
          extracted_preferences := none
          extraction_summary := none
          usage_stats := some (sv.get_usage user_id)
          trial_exceeded := true
          conversation_id := ("temp") }, [])
    else after_trial sv user_id req

/-! ## Observation helpers -/

/-- Is this effect a transcript write (`save_message`)? -/
def is_transcript_write : Effect → Bool
  | Effect.save_message _ _ _ => true
  | _ => false

/-- Is this effect a ranked-search invocation? -/
def is_search_call : Effect → Bool
  | Effect.search_events _ => true
  | _ => false

/-- Is this effect a corpus acquisition? -/
def is_fetch_call : Effect → Bool
  | Effect.fetch_events _ => true
  | _ => false

/-- Did the endpoint raise an `HTTPException`? -/
def is_http_error : ChatResult → Bool
  | ChatResult.httpError _ _ => true
  | ChatResult.ok _ => false

/-! ## Concrete instances for witnesses and counterexamples -/

/-- A rate limiter configured with `max_requests = 1`, `window = 60`. -/
def rl_w : RateLimiter := ⟨1, 60, fun _ => []⟩

/-- `rl_w` after one admitted call at time 0. -/
def rl_w1 : RateLimiter := (check_rate_limit rl_w ("u") 0).2.2

/-- Trivial collaborators: no stored conversations, trial never exceeded,
no cache, empty search results. -/
def sample_services : Services :=
  { get_conversation := fun _ _ => Except.ok none
    check_trial_limit := fun _ => false
    trial_limit := 5
    get_usage := fun _ => [(("interactions_used"), 5)]
    increment_usage := fun _ => [(("interactions_used"), 1)]
    create_conversation := fun _ => ("conv-1")
    extract_user_preferences := fun _ =>
      ⟨some ("none"), some ("none"), some ("none"), some ("none")⟩
    extract_location_from_query := fun _ => none
    supported_cities := [("new_york"), ("los_angeles")]
    get_cached_events := fun _ => none
    get_cache_age := fun _ => none
    intelligent_event_search := fun _ _ _ => []
    now_iso := ("2026-01-01T00:00:00") }

/-- A plain non-initial request without a conversation reference. -/
def sample_request : ChatRequest :=
  { message := ("hello"), conversation_history := [],
    llm_provider := ("openai"), user_preferences := none,
    is_initial_response := false, conversation_id := none }

/-- `sample_request` carrying the conversation reference `"c1"`. -/
def sample_request_ref : ChatRequest :=
  { sample_request with conversation_id := some ("c1") }

/-- An initial-turn request. -/
def sample_request_initial : ChatRequest :=
  { sample_request with is_initial_response := true }

/-- Collaborators whose trial limit is already exceeded. -/
def services_trial : Services :=
  { sample_services with check_trial_limit := fun _ => true }

/-- Collaborators storing a conversation whose owner field is the empty
string. -/
def services_owner_empty : Services :=
  { sample_services with
    get_conversation := fun _ _ => Except.ok (some ⟨some ("")⟩) }

/-- Collaborators storing a conversation owned by `"bob"`. -/
def services_owner_bob : Services :=
  { sample_services with
    get_conversation := fun _ _ => Except.ok (some ⟨some ("bob")⟩) }

/-- Collaborators whose preference extraction returns location `"Paris"`. -/
def services_paris : Services :=
  { sample_services with
    extract_user_preferences := fun _ =>
      ⟨some ("Paris"), some ("none"), some ("none"), some ("none")⟩ }

/-- Collaborators with a cached corpus of age 2.5 hours. -/
def services_cache : Services :=
  { sample_services with
    get_cached_events := fun _ => some [⟨some ("show"), some 1⟩]
    get_cache_age := fun _ => some (5/2 : ℚ) }

/-- Collaborators performing a same-turn synchronous fetch: truthy cached
events with a `None` cache age — the corner that crashes line 208. -/
def services_sync_fetch : Services :=
  { sample_services with
    get_cached_events := fun _ => some [⟨some ("show"), some 1⟩]
    get_cache_age := fun _ => none }

/-- A request whose message text is the empty string. -/
def request_empty_message : ChatRequest :=
  { message := (""), conversation_history := [], llm_provider := ("openai"),
    user_preferences := none, is_initial_response := false,
    conversation_id := none }

/-! ### Basic lemmas about the rate limiter -/

theorem cleanup_requests_self (rl : RateLimiter) (u : String) (t : Int) :
    (cleanup_old_requests rl u t).requests u
      = (rl.requests u).filter (fun e => decide (t - rl.window_seconds < e.1)) := by
  simp [cleanup_old_requests]

theorem cleanup_requests_other (rl : RateLimiter) {u v : String} (t : Int) (h : v ≠ u) :
    (cleanup_old_requests rl u t).requests v = rl.requests v := by
  simp [cleanup_old_requests, Function.update_noteq h]

theorem check_fst (rl : RateLimiter) (u : String) (t : Int) :
    (check_rate_limit rl u t).1
      = decide ((((rl.requests u).filter
          (fun e => decide (t - rl.window_seconds < e.1))).map Prod.snd).sum
            < rl.max_requests) := by
  simp [check_rate_limit, cleanup_requests_self]

theorem check_info (rl : RateLimiter) (u : String) (t : Int) :
    (check_rate_limit rl u t).2.1
      = ⟨rl.max_requests,
         rl.max_requests - (((rl.requests u).filter
           (fun e => decide (t - rl.window_seconds < e.1))).map Prod.snd).sum,
         match (((rl.requests u).filter
           (fun e => decide (t - rl.window_seconds < e.1))).map Prod.fst).min? with
         | some oldest => oldest + rl.window_seconds
         | none => t + rl.window_seconds⟩ := by
  simp [check_rate_limit, cleanup_requests_self]

theorem check_requests_self (rl : RateLimiter) (u : String) (t : Int) :
    (check_rate_limit rl u t).2.2.requests u
      = ((rl.requests u).filter (fun e => decide (t - rl.window_seconds < e.1)))
        ++ (if (check_rate_limit rl u t).1 = true then [(t, 1)] else []) := by
  by_cases hall : (check_rate_limit rl u t).1 = true
  · rw [check_fst] at hall
    simp [check_rate_limit, cleanup_requests_self, hall, cleanup_old_requests]
  · rw [check_fst] at hall
    simp only [decide_eq_true_eq] at hall
    simp [check_rate_limit, cleanup_requests_self, hall, cleanup_old_requests]

theorem check_requests_other (rl : RateLimiter) {u v : String} (t : Int) (h : v ≠ u) :
    (check_rate_limit rl u t).2.2.requests v = rl.requests v := by
  simp only [check_rate_limit]
  split <;>
    simp [cleanup_old_requests, Function.update_noteq h]

theorem check_max (rl : RateLimiter) (u : String) (t : Int) :
    (check_rate_limit rl u t).2.2.max_requests = rl.max_requests := by
  simp only [check_rate_limit]
  split <;> simp [cleanup_old_requests]

theorem check_window (rl : RateLimiter) (u : String) (t : Int) :
    (check_rate_limit rl u t).2.2.window_seconds = rl.window_seconds := by
  simp only [check_rate_limit]
  split <;> simp [cleanup_old_requests]

/-- The outcome of `check_rate_limit` for `u` depends only on the limiter
configuration and on `u`'s own event list. -/
theorem check_congr {rl1 rl2 : RateLimiter} (u : String) (t : Int)
    (hreq : rl1.requests u = rl2.requests u)
    (hmax : rl1.max_requests = rl2.max_requests)
    (hwin : rl1.window_seconds = rl2.window_seconds) :
    (check_rate_limit rl1 u t).1 = (check_rate_limit rl2 u t).1
    ∧ (check_rate_limit rl1 u t).2.1 = (check_rate_limit rl2 u t).2.1
    ∧ (check_rate_limit rl1 u t).2.2.requests u
        = (check_rate_limit rl2 u t).2.2.requests u := by
  refine ⟨?_, ?_, ?_⟩
  · rw [check_fst, check_fst, hreq, hmax, hwin]
  · rw [check_info, check_info, hreq, hmax, hwin]
  · rw [check_requests_self, check_requests_self, check_fst, check_fst,
      hreq, hmax, hwin]

theorem run_calls_requests_other (rl : RateLimiter) {u v : String} (h : v ≠ u) :
    ∀ ts : List Int, (run_calls rl u ts).requests v = rl.requests v := by
  intro ts
  induction ts generalizing rl with
  | nil => rfl
  | cons t ts ih => rw [run_calls, ih, check_requests_other _ _ h]

theorem run_calls_max (rl : RateLimiter) (u : String) :
    ∀ ts : List Int, (run_calls rl u ts).max_requests = rl.max_requests := by
  intro ts
  induction ts generalizing rl with
  | nil => rfl
  | cons t ts ih => rw [run_calls, ih, check_max]

theorem run_calls_window (rl : RateLimiter) (u : String) :
    ∀ ts : List Int, (run_calls rl u ts).window_seconds = rl.window_seconds := by
  intro ts
  induction ts generalizing rl with
  | nil => rfl
  | cons t ts ih => rw [run_calls, ih, check_window]

theorem min?_int_spec {l : List Int} (h : l ≠ []) :
    ∃ t0, l.min? = some t0 ∧ t0 ∈ l ∧ ∀ t1 ∈ l, t0 ≤ t1 := by
  cases hm : l.min? with
  | none => exact absurd (List.min?_eq_none_iff.mp hm) h
  | some a =>
    exact ⟨a, rfl, List.min?_mem (fun x y => min_choice x y) hm,
      fun t1 ht1 =>
        (List.le_min?_iff (fun x y z => le_min_iff) hm).mp le_rfl t1 ht1⟩

/-- The two window predicates coincide: the code keeps
`cutoff < ts`, the claim removes `ts ≤ cutoff`. -/
theorem survivors_filter_eq (rl : RateLimiter) (u : String) (t : Int) :
    (rl.requests u).filter (fun e => decide (¬ (e.1 ≤ t - rl.window_seconds)))
      = (rl.requests u).filter (fun e => decide (t - rl.window_seconds < e.1)) := by
  exact List.filter_congr (fun e _ => decide_eq_decide.mpr not_le)

/-- C1: one call to `check_rate_limit` removes exactly the stored events
with timestamp ≤ now − window_seconds; with `s` the sum of the surviving
counts it returns `allowed = (s < max_requests)`,
`remaining = max(0, max_requests − s)`, and `reset` = oldest surviving
timestamp + window_seconds (or now + window_seconds when none survives);
it appends `(now, 1)` to that identity's list iff allowed, inside the same
operation, with no other state change. -/
theorem c1_check_rate_limit_contract (rl : RateLimiter) (u : String) (t : Int) :
    ((check_rate_limit rl u t).2.2.requests u
        = ((rl.requests u).filter (fun e => decide (¬ (e.1 ≤ t - rl.window_seconds))))
          ++ (if (check_rate_limit rl u t).1 = true then [(t, 1)] else []))
    ∧ ((check_rate_limit rl u t).1 = true
        ↔ ((((rl.requests u).filter
              (fun e => decide (¬ (e.1 ≤ t - rl.window_seconds)))).map Prod.snd).sum
            < rl.max_requests))
    ∧ (check_rate_limit rl u t).2.1.limit = rl.max_requests
    ∧ (((check_rate_limit rl u t).2.1.remaining : Int)
        = max 0 ((rl.max_requests : Int)
            - (((((rl.requests u).filter
                (fun e => decide (¬ (e.1 ≤ t - rl.window_seconds)))).map Prod.snd).sum : Nat) : Int)))
    ∧ ((((rl.requests u).filter (fun e => decide (¬ (e.1 ≤ t - rl.window_seconds)))) = []
        → (check_rate_limit rl u t).2.1.reset = t + rl.window_seconds)
    ∧ ((((rl.requests u).filter (fun e => decide (¬ (e.1 ≤ t - rl.window_seconds)))) ≠ []
        → ∃ t0 ∈ (((rl.requests u).filter
              (fun e => decide (¬ (e.1 ≤ t - rl.window_seconds)))).map Prod.fst),
            (∀ t1 ∈ (((rl.requests u).filter
              (fun e => decide (¬ (e.1 ≤ t - rl.window_seconds)))).map Prod.fst), t0 ≤ t1)
            ∧ (check_rate_limit rl u t).2.1.reset = t0 + rl.window_seconds)
    ∧ ((check_rate_limit rl u t).2.2.max_requests = rl.max_requests
    ∧ ((check_rate_limit rl u t).2.2.window_seconds = rl.window_seconds
    ∧ (∀ v, v ≠ u → (check_rate_limit rl u t).2.2.requests v = rl.requests v))))) := by
  rw [survivors_filter_eq]
  refine ⟨?_, ?_, ?_, ?_, ?_, ?_, check_max rl u t, check_window rl u t,
    fun v hv => check_requests_other rl t hv⟩
  · exact check_requests_self rl u t
  · rw [check_fst]; simp
  · rw [check_info]
  · rw [check_info]
    simp only []
    omega
  · intro hnil
    rw [check_info]
    simp [hnil]
  · intro hnil
    have hmapne : (((rl.requests u).filter
        (fun e => decide (t - rl.window_seconds < e.1))).map Prod.fst) ≠ [] := by
      simpa using hnil
    obtain ⟨t0, hmin, hmem, hle⟩ := min?_int_spec hmapne
    refine ⟨t0, hmem, hle, ?_⟩
    rw [check_info]
    simp [hmin]

/-- Witness for C1 at a concrete input: an empty store has no survivors,
so `reset = now + window_seconds`. -/
theorem c1_check_rate_limit_contract_witness :
    ((rl_w.requests ("u")).filter
        (fun e => decide (¬ (e.1 ≤ 5 - rl_w.window_seconds)))) = []
    ∧ (check_rate_limit rl_w ("u") 5).2.1.reset = 5 + rl_w.window_seconds := by
  obtain ⟨-, -, -, -, h5, -⟩ := c1_check_rate_limit_contract rl_w ("u") 5
  exact ⟨rfl, h5 rfl⟩

/-- C8 as stated is false: with `max_requests = 1` and `window = 60`, the
identity `"u"` admitted at time 0 is throttled at time 0, is admitted
again at time 60, but the `remaining` reported by that admitting call is
`1 = max_requests`, not `max_requests − 1 = 0`. -/
theorem c8_remaining_cex :
    (check_rate_limit rl_w1 ("u") 0).1 = false
    ∧ (check_rate_limit rl_w1 ("u") 60).1 = true
    ∧ (check_rate_limit rl_w1 ("u") 60).2.1.remaining = rl_w.max_requests
    ∧ rl_w.max_requests - 1 = 0
    ∧ (check_rate_limit rl_w1 ("u") 60).2.1.remaining ≠ rl_w.max_requests - 1 := by
  refine ⟨by decide, by decide, by decide, by decide, by decide⟩

/-- C8 amended: for an identity whose stored events all lie at or before
the throttled call's time `T`, once `window_seconds` have elapsed the next
call is admitted; that admitting call reports `remaining = max_requests`
(the count is taken before the admit is recorded), and an immediately
following call reports `max_requests − 1`. -/
theorem c8_window_recovery (rl : RateLimiter) (u : String) (T T2 : Int)
    (hmax : 0 < rl.max_requests) (hw : 0 < rl.window_seconds)
    (hts : ∀ e ∈ rl.requests u, e.1 ≤ T)
    (hden : (check_rate_limit rl u T).1 = false)
    (hel : T + rl.window_seconds ≤ T2) :
    (check_rate_limit ((check_rate_limit rl u T).2.2) u T2).1 = true
    ∧ (check_rate_limit ((check_rate_limit rl u T).2.2) u T2).2.1.remaining
        = rl.max_requests
    ∧ (check_rate_limit
        ((check_rate_limit ((check_rate_limit rl u T).2.2) u T2).2.2) u T2).2.1.remaining
        = rl.max_requests - 1 := by
  set s1 := (check_rate_limit rl u T).2.2 with hs1
  have hs1req : s1.requests u
      = (rl.requests u).filter (fun e => decide (T - rl.window_seconds < e.1)) := by
    rw [hs1, check_requests_self, hden]
    simp
  have hs1max : s1.max_requests = rl.max_requests := check_max rl u T
  have hs1win : s1.window_seconds = rl.window_seconds := check_window rl u T
  have hfil2 : (s1.requests u).filter
      (fun e => decide (T2 - s1.window_seconds < e.1)) = [] := by
    rw [List.filter_eq_nil_iff]
    intro e he
    rw [hs1req] at he
    have h1 : e.1 ≤ T := hts e (List.mem_filter.mp he).1
    rw [hs1win]
    simp only [decide_eq_true_eq, not_lt]
    omega
  have hall2 : (check_rate_limit s1 u T2).1 = true := by
    rw [check_fst, hfil2]
    simp [hs1max, hmax]
  refine ⟨hall2, ?_, ?_⟩
  · rw [check_info, hfil2, hs1max]
    simp
  · set s2 := (check_rate_limit s1 u T2).2.2 with hs2
    have hs2req : s2.requests u = [(T2, 1)] := by
      rw [hs2, check_requests_self, hall2, hfil2]
      simp
    have hs2max : s2.max_requests = rl.max_requests := by
      rw [hs2, check_max, hs1max]
    have hs2win : s2.window_seconds = rl.window_seconds := by
      rw [hs2, check_window, hs1win]
    have hfil3 : (s2.requests u).filter
        (fun e => decide (T2 - s2.window_seconds < e.1)) = [(T2, 1)] := by
      rw [hs2req, hs2win]
      simp [List.filter, hw]
    rw [check_info, hfil3, hs2max]
    simp

/-- Witness for C8 (amended) at a concrete run: `rl_w1` throttled at 0 is
admitted at 60 with `remaining = 1`, and a second call at 60 reports
`remaining = 0`. -/
theorem c8_window_recovery_witness :
    (check_rate_limit ((check_rate_limit rl_w1 ("u") 0).2.2) ("u") 60).1 = true
    ∧ (check_rate_limit ((check_rate_limit rl_w1 ("u") 0).2.2) ("u") 60).2.1.remaining = 1
    ∧ (check_rate_limit
        ((check_rate_limit ((check_rate_limit rl_w1 ("u") 0).2.2) ("u") 60).2.2)
        ("u") 60).2.1.remaining = 0 := by
  exact c8_window_recovery rl_w1 ("u") 0 60 (by decide) (by decide)
    (by decide) (by decide) (by decide)

/-- C9: calls for identity `A` never change identity `B`'s stored window
events, and `B`'s next call returns the same `(allowed, info)` and leaves
`B`'s events the same as it would have without `A`'s calls. -/
theorem c9_identity_isolation (rl : RateLimiter) (A B : String) (hAB : A ≠ B)
    (ts : List Int) (t : Int) :
    (run_calls rl A ts).requests B = rl.requests B
    ∧ (check_rate_limit (run_calls rl A ts) B t).1 = (check_rate_limit rl B t).1
    ∧ (check_rate_limit (run_calls rl A ts) B t).2.1 = (check_rate_limit rl B t).2.1
    ∧ (check_rate_limit (run_calls rl A ts) B t).2.2.requests B
        = (check_rate_limit rl B t).2.2.requests B := by
  have hreq : (run_calls rl A ts).requests B = rl.requests B :=
    run_calls_requests_other rl (Ne.symm hAB) ts
  obtain ⟨h1, h2, h3⟩ := check_congr B t hreq (run_calls_max rl A ts)
    (run_calls_window rl A ts)
  exact ⟨hreq, h1, h2, h3⟩

/-- Witness for C9: exhausting `"a"`'s quota (two calls against
`max_requests = 1`) leaves `"b"`'s events untouched. -/
theorem c9_identity_isolation_witness :
    (run_calls rl_w ("a") [0, 0]).requests ("b") = rl_w.requests ("b")
    ∧ (check_rate_limit (run_calls rl_w ("a") [0, 0]) ("b") 0).1
        = (check_rate_limit rl_w ("b") 0).1 := by
  obtain ⟨h1, h2, -, -⟩ :=
    c9_identity_isolation rl_w ("a") ("b") (by decide) [0, 0] 0
  exact ⟨h1, h2⟩

/-! ### Lemmas about the endpoint pipeline -/

/-- The corpus-acquisition crash terminates the stage with the 500 after
the fetch. -/
theorem main_stage_error (sv : Services) (u : String) (req : ChatRequest)
    (cid : String) (us : Option UsageStats) (prefs : Option UserPreferences)
    (city : Option String) (lp : Bool)
    (hc : acquire_corpus sv (city.getD ("new york")) = Except.error ()) :
    main_stage sv u req cid us prefs city lp
      = (ChatResult.httpError 500 internal_error_detail,
         [Effect.fetch_events (city.getD ("new york"))]) := by
  simp only [main_stage]
  rw [hc]

theorem main_stage_error_status (sv : Services) (u : String)
    (req : ChatRequest) (cid : String) (us : Option UsageStats)
    (prefs : Option UserPreferences) (city : Option String) (lp : Bool) :
    ∀ st d, (main_stage sv u req cid us prefs city lp).1
      = ChatResult.httpError st d → st = 500 := by
  intro st d
  simp only [main_stage]
  cases hac : acquire_corpus sv (city.getD ("new york")) with
  | error e =>
    intro h
    injection h with h1 _
    exact h1.symm
  | ok corpus =>
    intro h
    exact ChatResult.noConfusion h

theorem after_trial_error_status (sv : Services) (u : String)
    (req : ChatRequest) :
    ∀ st d, (after_trial sv u req).1 = ChatResult.httpError st d → st = 500 := by
  intro st d
  simp only [after_trial]
  split
  · intro h
    exact ChatResult.noConfusion h
  · intro h
    exact main_stage_error_status sv u req _ _ _ _ _ st d h

/-- Once the ownership stage lets the turn through, every `HTTPException`
the handler can still raise is the generic 500 — never a 403 or 404. -/
theorem public_chat_error_status (sv : Services) (u : String)
    (req : ChatRequest)
    (hown : check_ownership sv u req.conversation_id = none) :
    ∀ st d, (public_chat sv u req).1 = ChatResult.httpError st d → st = 500 := by
  intro st d
  unfold public_chat
  rw [hown]
  dsimp only
  split
  · intro h
    exact ChatResult.noConfusion h
  · intro h
    exact after_trial_error_status sv u req st d h

theorem public_chat_terminated (sv : Services) (u : String) (req : ChatRequest)
    (sd : Nat × String)
    (hown : check_ownership sv u req.conversation_id = some sd) :
    public_chat sv u req = (ChatResult.httpError sd.1 sd.2, []) := by
  unfold public_chat
  rw [hown]

theorem pyOptStrTruthy_some {s : String} (h : s ≠ ("")) :
    pyOptStrTruthy (some s) = true := by
  simp [pyOptStrTruthy, h]

theorem check_ownership_found (sv : Services) (u cid : String)
    (conv : Conversation) (hne : cid ≠ (""))
    (hconv : sv.get_conversation u cid = Except.ok (some conv)) :
    check_ownership sv u (some cid)
      = match conv.user_id with
        | some owner =>
          if owner ≠ ("") ∧ owner ≠ u then some (403, forbidden_detail)
          else none
        | none => none := by
  unfold check_ownership
  rw [if_pos (pyOptStrTruthy_some hne)]
  simp only [Option.getD_some]
  rw [hconv]

theorem check_ownership_missing (sv : Services) (u cid : String)
    (hne : cid ≠ ("")) (hconv : sv.get_conversation u cid = Except.ok none) :
    check_ownership sv u (some cid) = some (404, not_found_detail) := by
  unfold check_ownership
  rw [if_pos (pyOptStrTruthy_some hne)]
  simp only [Option.getD_some]
  rw [hconv]

theorem check_ownership_raised (sv : Services) (u cid : String)
    (hne : cid ≠ ("")) (hconv : sv.get_conversation u cid = Except.error ()) :
    check_ownership sv u (some cid) = some (404, not_found_detail) := by
  unfold check_ownership
  rw [if_pos (pyOptStrTruthy_some hne)]
  simp only [Option.getD_some]
  rw [hconv]

theorem is_http_error_of_eq {r : ChatResult} {st : Nat} {d : String}
    (h : r = ChatResult.httpError st d) : is_http_error r = true := by
  rw [h]; rfl

/-- C2 (amended: a stored owner that is absent or empty skips the check,
see C3): with a conversation reference, an unmatched reference terminates
with 404, a stored owner that is present, non-empty and different from the
identity terminates with 403, a matching owner passes the ownership stage
(the check does not terminate the turn, and any `HTTPException` the rest
of the pipeline can still raise — such as the line-208 crash of C7 — is
the generic 500, never 403 or 404), and an unexpected failure of the
lookup is mapped to 404, never to 403 or a server error. -/
theorem c2_ownership_gate (sv : Services) (user_id : String) (req : ChatRequest)
    (cid : String) (hcid : req.conversation_id = some cid) (hne : cid ≠ ("")) :
    (sv.get_conversation user_id cid = Except.ok none
      → public_chat sv user_id req
          = (ChatResult.httpError 404 not_found_detail, []))
    ∧ (sv.get_conversation user_id cid = Except.error ()
      → public_chat sv user_id req
          = (ChatResult.httpError 404 not_found_detail, []))
    ∧ (∀ conv owner, sv.get_conversation user_id cid = Except.ok (some conv)
      → conv.user_id = some owner → owner ≠ ("") → owner ≠ user_id
      → public_chat sv user_id req
          = (ChatResult.httpError 403 forbidden_detail, []))
    ∧ (∀ conv, sv.get_conversation user_id cid = Except.ok (some conv)
      → conv.user_id = some user_id
      → check_ownership sv user_id req.conversation_id = none
        ∧ (∀ st d, (public_chat sv user_id req).1 = ChatResult.httpError st d
            → st = 500)) := by
  refine ⟨?_, ?_, ?_, ?_⟩
  · intro h
    have hown : check_ownership sv user_id req.conversation_id
        = some (404, not_found_detail) := by
      rw [hcid]; exact check_ownership_missing sv user_id cid hne h
    exact public_chat_terminated sv user_id req _ hown
  · intro h
    have hown : check_ownership sv user_id req.conversation_id
        = some (404, not_found_detail) := by
      rw [hcid]; exact check_ownership_raised sv user_id cid hne h
    exact public_chat_terminated sv user_id req _ hown
  · intro conv owner h howner hone hou
    have hown : check_ownership sv user_id req.conversation_id
        = some (403, forbidden_detail) := by
      rw [hcid, check_ownership_found sv user_id cid conv hne h, howner]
      exact if_pos ⟨hone, hou⟩
    exact public_chat_terminated sv user_id req _ hown
  · intro conv h howner
    have hown : check_ownership sv user_id req.conversation_id = none := by
      rw [hcid, check_ownership_found sv user_id cid conv hne h, howner]
      exact if_neg (fun hcon => hcon.2 rfl)
    exact ⟨hown, public_chat_error_status sv user_id req hown⟩

/-- Witness for C2: identity `"alice"` requesting `"bob"`'s conversation
is rejected with 403. -/
theorem c2_ownership_gate_witness :
    public_chat services_owner_bob ("alice") sample_request_ref
      = (ChatResult.httpError 403 forbidden_detail, []) := by
  obtain ⟨-, -, h3, -⟩ := c2_ownership_gate services_owner_bob ("alice")
    sample_request_ref ("c1") rfl (by decide)
  exact h3 ⟨some ("bob")⟩ ("bob") rfl rfl (by decide) (by decide)

/-- Counterexample to C2 as stated: a stored conversation whose owner
field is the empty string differs from the caller `"alice"`, yet the turn
is not rejected — the pipeline proceeds with no `HTTPException`. -/
theorem c2_ownership_gate_cex :
    services_owner_empty.get_conversation ("alice") ("c1")
        = Except.ok (some ⟨some ("")⟩)
    ∧ (("") : String) ≠ ("alice")
    ∧ is_http_error
        (public_chat services_owner_empty ("alice") sample_request_ref).1
        = false :=
  ⟨rfl, by decide, by decide⟩

/-- C3: with a conversation reference resolving to a stored conversation,
403 is raised iff the stored owner field is present, non-empty and
different from the caller; an absent or empty owner field skips the check
and the pipeline proceeds: the ownership stage does not terminate the
turn, and any `HTTPException` the rest of the pipeline can still raise
(such as the line-208 crash of C7) is the generic 500, never 403 or
404. -/
theorem c3_owner_truthiness (sv : Services) (user_id : String)
    (req : ChatRequest) (cid : String) (conv : Conversation)
    (hcid : req.conversation_id = some cid) (hne : cid ≠ (""))
    (hconv : sv.get_conversation user_id cid = Except.ok (some conv)) :
    ((∃ d, (public_chat sv user_id req).1 = ChatResult.httpError 403 d)
      ↔ ∃ o, conv.user_id = some o ∧ o ≠ ("") ∧ o ≠ user_id)
    ∧ ((conv.user_id = none ∨ conv.user_id = some (""))
      → check_ownership sv user_id req.conversation_id = none
        ∧ (∀ st d, (public_chat sv user_id req).1 = ChatResult.httpError st d
            → st = 500)) := by
  have hfound := check_ownership_found sv user_id cid conv hne hconv
  cases hcase : conv.user_id with
  | none =>
    have hown : check_ownership sv user_id req.conversation_id = none := by
      rw [hcid, hfound, hcase]
    have herr := public_chat_error_status sv user_id req hown
    constructor
    · constructor
      · rintro ⟨d, hd⟩
        exact absurd (herr 403 d hd) (by decide)
      · rintro ⟨o, ho, -, -⟩
        exact absurd ho (by simp)
    · intro _
      exact ⟨hown, herr⟩
  | some o =>
    by_cases hoe : o = ("")
    · have hown : check_ownership sv user_id req.conversation_id = none := by
        rw [hcid, hfound, hcase]
        exact if_neg (fun hcon => hcon.1 hoe)
      have herr := public_chat_error_status sv user_id req hown
      constructor
      · constructor
        · rintro ⟨d, hd⟩
          exact absurd (herr 403 d hd) (by decide)
        · rintro ⟨o2, ho2, ho2e, -⟩
          exact absurd ((Option.some_inj.mp ho2) ▸ hoe) ho2e
      · intro _
        exact ⟨hown, herr⟩
    · by_cases hou : o = user_id
      · have hown : check_ownership sv user_id req.conversation_id = none := by
          rw [hcid, hfound, hcase]
          exact if_neg (fun hcon => hcon.2 hou)
        have herr := public_chat_error_status sv user_id req hown
        constructor
        · constructor
          · rintro ⟨d, hd⟩
            exact absurd (herr 403 d hd) (by decide)
          · rintro ⟨o2, ho2, -, ho2u⟩
            exact absurd ((Option.some_inj.mp ho2) ▸ hou) ho2u
        · rintro (hn | hs)
          · exact absurd hn (by simp)
          · exact ⟨hown, herr⟩
      · have hown : check_ownership sv user_id req.conversation_id
            = some (403, forbidden_detail) := by
          rw [hcid, hfound, hcase]
          exact if_pos ⟨hoe, hou⟩
        have hterm := public_chat_terminated sv user_id req _ hown
        constructor
        · constructor
          · intro _
            exact ⟨o, rfl, hoe, hou⟩
          · intro _
            refine ⟨forbidden_detail, ?_⟩
            rw [hterm]
        · rintro (hn | hs)
          · exact absurd hn (by simp)
          · exact absurd (Option.some_inj.mp hs) hoe

/-- Witness for C3: owner `"bob"` is present, non-empty and different
from caller `"alice"`, so the turn ends in a 403. -/
theorem c3_owner_truthiness_witness :
    ∃ d, (public_chat services_owner_bob ("alice") sample_request_ref).1
      = ChatResult.httpError 403 d := by
  have h := c3_owner_truthiness services_owner_bob ("alice")
    sample_request_ref ("c1") ⟨some ("bob")⟩ rfl (by decide) rfl
  exact h.1.mpr ⟨("bob"), rfl, by decide, by decide⟩

/-- C4: an ephemeral identity (`user_` prefix) whose trial limit is
exceeded receives a terminal response with `trial_exceeded = true`, empty
recommendations, the fixed trial-limit message, and the current usage
snapshot, and the turn performs no side effect at all: no conversation is
created, no message is saved, and the usage counter is not incremented. -/
theorem c4_trial_gate (sv : Services) (user_id : String) (req : ChatRequest)
    (hown : check_ownership sv user_id req.conversation_id = none)
    (hanon : anonymous_user user_id = true)
    (hex : sv.check_trial_limit user_id = true) :
    public_chat sv user_id req
      = (ChatResult.ok
          { message := trial_limit_message sv.trial_limit
            recommendations := []
            llm_provider_used := req.llm_provider
            cache_used := false
            cache_age_hours := none
            extracted_preferences := none
            extraction_summary := none
            usage_stats := some (sv.get_usage user_id)
            trial_exceeded := true
            conversation_id := ("temp") }, []) := by
  unfold public_chat
  rw [hown]
  dsimp only
  rw [if_pos ⟨hanon, hex⟩]

/-- Witness for C4 at a concrete run: `"user_9"` over `services_trial`. -/
theorem c4_trial_gate_witness :
    public_chat services_trial ("user_9") sample_request
      = (ChatResult.ok
          { message := trial_limit_message 5
            recommendations := []
            llm_provider_used := ("openai")
            cache_used := false
            cache_age_hours := none
            extracted_preferences := none
            extraction_summary := none
            usage_stats := some [(("interactions_used"), 5)]
            trial_exceeded := true
            conversation_id := ("temp") }, []) :=
  c4_trial_gate services_trial ("user_9") sample_request rfl (by decide) rfl

/-! ### Lemmas about city resolution and the effect trace -/

theorem pref_location_truthy_some {p : UserPreferences} {loc : String}
    (hl : p.location = some loc) (h1 : loc ≠ ("")) (h2 : loc ≠ ("none")) :
    pref_location_truthy p = some loc := by
  unfold pref_location_truthy
  rw [hl]
  exact if_pos ⟨h1, h2⟩

theorem resolve_city_pref {prefs : Option UserPreferences}
    {q : Option String} {loc : String}
    (hp : prefs.bind pref_location_truthy = some loc) :
    resolve_city prefs q = (some (py_lower loc), true) := by
  unfold resolve_city
  rw [hp]

theorem resolve_city_query {prefs : Option UserPreferences} {q : String}
    (hp : prefs.bind pref_location_truthy = none) (hqne : q ≠ ("")) :
    resolve_city prefs (some q) = (some (py_lower q), true) := by
  unfold resolve_city
  rw [hp]
  exact if_pos hqne

theorem resolve_city_none {prefs : Option UserPreferences} {q : Option String}
    (hp : prefs.bind pref_location_truthy = none)
    (hq : pyOptStrTruthy q = false) :
    resolve_city prefs q = (none, false) := by
  unfold resolve_city
  rw [hp]
  cases q with
  | none => rfl
  | some s =>
    simp only [pyOptStrTruthy, Bool.not_eq_false'] at hq
    have hs : s = ("") := by simpa using hq
    simp [hs]

theorem usage_effects_filter (sv : Services) (u : String) (p : Effect → Bool)
    (hp : p (Effect.increment_usage u) = false) :
    ((usage_effects sv u).2).filter p = [] := by
  unfold usage_effects
  split
  · simp [List.filter, hp]
  · rfl

theorem materialize_filter (sv : Services) (u : String) (cid : Option String)
    (prov : String) (p : Effect → Bool)
    (hp : ∀ c pr, p (Effect.create_conversation c pr) = false) :
    ((materialize_conversation sv u cid prov).2).filter p = [] := by
  unfold materialize_conversation
  split
  · rfl
  · simp [List.filter, hp]

/-- The response assembled by the main stage when corpus acquisition
returns, spelled out. -/
theorem main_stage_resp (sv : Services) (u : String) (req : ChatRequest)
    (cid : String) (us : Option UsageStats) (prefs : Option UserPreferences)
    (city : Option String) (lp : Bool)
    (corpus : List Event × Bool × Option ℚ)
    (hc : acquire_corpus sv (city.getD ("new york")) = Except.ok corpus) :
    main_stage sv u req cid us prefs city lp
      = (ChatResult.ok
          { message := response_message
              (sv.intelligent_event_search req.message corpus.1 prefs).length
              (city.getD ("new york"))
              (if lp = false ∧ (city.getD ("new york")) = ("new york") then
                default_location_note
              else (""))
            recommendations := (sv.intelligent_event_search req.message
              corpus.1 prefs).map
              (format_recommendation corpus.2.1 (city.getD ("new york")))
            llm_provider_used := req.llm_provider
            cache_used := corpus.2.1
            cache_age_hours := corpus.2.2
            extracted_preferences := prefs
            extraction_summary := prefs.bind extraction_summary_of
            usage_stats := us
            trial_exceeded := false
            conversation_id := cid },
         [Effect.fetch_events (city.getD ("new york")),
          Effect.search_events req.message,
          Effect.save_message u cid
            (assistant_message sv
              (response_message
                (sv.intelligent_event_search req.message corpus.1 prefs).length
                (city.getD ("new york"))
                (if lp = false ∧ (city.getD ("new york")) = ("new york") then
                  default_location_note
                else ("")))
              ((sv.intelligent_event_search req.message corpus.1 prefs).map
                (format_recommendation corpus.2.1 (city.getD ("new york"))))
              prefs corpus.2.1 corpus.2.2),
          Effect.update_metadata u cid]) := by
  simp only [main_stage]
  rw [hc]

/-- The corpus fetch for the resolved city happens on both branches of
the main stage. -/
theorem fetch_mem_main_stage (sv : Services) (u : String) (req : ChatRequest)
    (cid : String) (us : Option UsageStats) (prefs : Option UserPreferences)
    (city : Option String) (lp : Bool) :
    Effect.fetch_events (city.getD ("new york"))
      ∈ (main_stage sv u req cid us prefs city lp).2 := by
  cases hac : acquire_corpus sv (city.getD ("new york")) with
  | error e =>
    cases e
    rw [main_stage_error sv u req cid us prefs city lp hac]
    simp
  | ok corpus =>
    rw [main_stage_resp sv u req cid us prefs city lp corpus hac]
    simp

/-- When the clarifying branch does not fire, `after_trial` runs the main
stage and prepends the stage-3 effects. -/
theorem after_trial_main (sv : Services) (u : String) (req : ChatRequest)
    (hnc : ¬ (req.is_initial_response = true
      ∧ (resolve_city (extract_prefs_stage sv req)
          (sv.extract_location_from_query req.message)).2 = false)) :
    after_trial sv u req
      = ((main_stage sv u req
            (materialize_conversation sv u req.conversation_id req.llm_provider).1
            (usage_effects sv u).1 (extract_prefs_stage sv req)
            (resolve_city (extract_prefs_stage sv req)
              (sv.extract_location_from_query req.message)).1
            (resolve_city (extract_prefs_stage sv req)
              (sv.extract_location_from_query req.message)).2).1,
         (usage_effects sv u).2
           ++ (materialize_conversation sv u req.conversation_id req.llm_provider).2
           ++ [Effect.save_message u
                (materialize_conversation sv u req.conversation_id req.llm_provider).1
                (user_message sv req)]
           ++ (main_stage sv u req
                (materialize_conversation sv u req.conversation_id req.llm_provider).1
                (usage_effects sv u).1 (extract_prefs_stage sv req)
                (resolve_city (extract_prefs_stage sv req)
                  (sv.extract_location_from_query req.message)).1
                (resolve_city (extract_prefs_stage sv req)
                  (sv.extract_location_from_query req.message)).2).2) := by
  simp only [after_trial]
  rw [if_neg hnc]

/-- When the gates pass, `public_chat` runs `after_trial`. -/
theorem public_chat_after_trial (sv : Services) (u : String) (req : ChatRequest)
    (hown : check_ownership sv u req.conversation_id = none)
    (hgate : ¬ (anonymous_user u = true ∧ sv.check_trial_limit u = true)) :
    public_chat sv u req = after_trial sv u req := by
  unfold public_chat
  rw [hown]
  dsimp only
  rw [if_neg hgate]

/-- C5: an initial turn in which neither preference extraction nor the
heuristic query extraction yields a location terminates with the
clarifying-question response and an empty recommendation list, performs
no corpus fetch and no search, and persists exactly the caller's user
message — no assistant message. -/
theorem c5_clarifying_question (sv : Services) (user_id : String)
    (req : ChatRequest)
    (hown : check_ownership sv user_id req.conversation_id = none)
    (hgate : ¬ (anonymous_user user_id = true
      ∧ sv.check_trial_limit user_id = true))
    (hinit : req.is_initial_response = true)
    (hploc : pref_location_truthy (sv.extract_user_preferences req.message)
      = none)
    (hq : pyOptStrTruthy (sv.extract_location_from_query req.message) = false) :
    ∃ resp conversation_id,
      (public_chat sv user_id req).1 = ChatResult.ok resp
      ∧ resp.message = clarifying_message sv.supported_cities
      ∧ resp.recommendations = []
      ∧ ((public_chat sv user_id req).2.filter is_transcript_write)
          = [Effect.save_message user_id conversation_id (user_message sv req)]
      ∧ (user_message sv req).role = ("user")
      ∧ (user_message sv req).content = req.message
      ∧ ((public_chat sv user_id req).2.filter is_search_call) = []
      ∧ ((public_chat sv user_id req).2.filter is_fetch_call) = [] := by
  have hpub := public_chat_after_trial sv user_id req hown hgate
  have hprefs : extract_prefs_stage sv req
      = some (sv.extract_user_preferences req.message) := by
    unfold extract_prefs_stage
    exact if_pos hinit
  have hrc : resolve_city (extract_prefs_stage sv req)
      (sv.extract_location_from_query req.message) = (none, false) := by
    rw [hprefs]
    exact resolve_city_none (by simpa using hploc) hq
  have hfull : public_chat sv user_id req
      = (ChatResult.ok
          { message := clarifying_message sv.supported_cities
            recommendations := []
            llm_provider_used := req.llm_provider
            cache_used := false
            cache_age_hours := none
            extracted_preferences := some (sv.extract_user_preferences req.message)
            extraction_summary := none
            usage_stats := none
            trial_exceeded := false
            conversation_id := (materialize_conversation sv user_id
              req.conversation_id req.llm_provider).1 },
         (usage_effects sv user_id).2
           ++ (materialize_conversation sv user_id req.conversation_id
                req.llm_provider).2
           ++ [Effect.save_message user_id
                (materialize_conversation sv user_id req.conversation_id
                  req.llm_provider).1
                (user_message sv req)]) := by
    rw [hpub]
    simp only [after_trial]
    rw [hrc, hprefs]
    rw [if_pos ⟨hinit, rfl⟩]
  refine ⟨{ message := clarifying_message sv.supported_cities
            recommendations := []
            llm_provider_used := req.llm_provider
            cache_used := false
            cache_age_hours := none
            extracted_preferences := some (sv.extract_user_preferences req.message)
            extraction_summary := none
            usage_stats := none
            trial_exceeded := false
            conversation_id := (materialize_conversation sv user_id
              req.conversation_id req.llm_provider).1 },
    (materialize_conversation sv user_id req.conversation_id
      req.llm_provider).1, ?_, rfl, rfl, ?_, rfl, rfl, ?_, ?_⟩
  · rw [hfull]
  · rw [hfull]
    simp only [List.filter_append]
    rw [usage_effects_filter sv user_id is_transcript_write rfl,
      materialize_filter sv user_id req.conversation_id req.llm_provider
        is_transcript_write (fun _ _ => rfl)]
    simp [List.filter, is_transcript_write]
  · rw [hfull]
    simp only [List.filter_append]
    rw [usage_effects_filter sv user_id is_search_call rfl,
      materialize_filter sv user_id req.conversation_id req.llm_provider
        is_search_call (fun _ _ => rfl)]
    simp [List.filter, is_search_call]
  · rw [hfull]
    simp only [List.filter_append]
    rw [usage_effects_filter sv user_id is_fetch_call rfl,
      materialize_filter sv user_id req.conversation_id req.llm_provider
        is_fetch_call (fun _ _ => rfl)]
    simp [List.filter, is_fetch_call]

/-- Witness for C5: `sample_services` extracts the all-`"none"`
preferences and no heuristic location for an initial turn. -/
theorem c5_clarifying_question_witness :
    ∃ resp conversation_id,
      (public_chat sample_services ("alice") sample_request_initial).1
          = ChatResult.ok resp
      ∧ resp.message = clarifying_message sample_services.supported_cities
      ∧ resp.recommendations = []
      ∧ ((public_chat sample_services ("alice") sample_request_initial).2.filter
          is_transcript_write)
          = [Effect.save_message ("alice") conversation_id
              (user_message sample_services sample_request_initial)]
      ∧ (user_message sample_services sample_request_initial).role = ("user")
      ∧ (user_message sample_services sample_request_initial).content
          = sample_request_initial.message
      ∧ ((public_chat sample_services ("alice") sample_request_initial).2.filter
          is_search_call) = []
      ∧ ((public_chat sample_services ("alice") sample_request_initial).2.filter
          is_fetch_call) = [] :=
  c5_clarifying_question sample_services ("alice") sample_request_initial
    rfl (by decide) rfl rfl rfl

/-- C6: city resolution follows the priority order — a truthy extracted
location not equal to `"none"` is used lowercased; otherwise a truthy
heuristic extraction over the raw text is used lowercased; otherwise a
non-initial turn defaults to `"new york"` (the corpus is fetched for the
default city unconditionally) and, whenever corpus acquisition returns
(the C7 age-null crash otherwise ends the turn with a 500 before any
response exists), the response message carries the defaulted-location
note. -/
theorem c6_city_resolution (sv : Services) (user_id : String)
    (req : ChatRequest)
    (hown : check_ownership sv user_id req.conversation_id = none)
    (hgate : ¬ (anonymous_user user_id = true
      ∧ sv.check_trial_limit user_id = true)) :
    (∀ loc, req.is_initial_response = true
      → (sv.extract_user_preferences req.message).location = some loc
      → loc ≠ ("") → loc ≠ ("none")
      → Effect.fetch_events (py_lower loc) ∈ (public_chat sv user_id req).2)
    ∧ (∀ q, (extract_prefs_stage sv req).bind pref_location_truthy = none
      → sv.extract_location_from_query req.message = some q → q ≠ ("")
      → Effect.fetch_events (py_lower q) ∈ (public_chat sv user_id req).2)
    ∧ (req.is_initial_response = false
      → pyOptStrTruthy (sv.extract_location_from_query req.message) = false
      → (Effect.fetch_events ("new york") ∈ (public_chat sv user_id req).2
        ∧ ∀ corpus, acquire_corpus sv ("new york") = Except.ok corpus
            → ∃ resp n, (public_chat sv user_id req).1 = ChatResult.ok resp
                ∧ resp.message
                    = response_message n ("new york") default_location_note)) := by
  refine ⟨?_, ?_, ?_⟩
  · intro loc hinit hl h1 h2
    have hprefs : extract_prefs_stage sv req
        = some (sv.extract_user_preferences req.message) := by
      unfold extract_prefs_stage
      exact if_pos hinit
    have hbind : (extract_prefs_stage sv req).bind pref_location_truthy
        = some loc := by
      rw [hprefs]
      simpa using pref_location_truthy_some hl h1 h2
    have hrc : resolve_city (extract_prefs_stage sv req)
        (sv.extract_location_from_query req.message)
        = (some (py_lower loc), true) := resolve_city_pref hbind
    have hnc : ¬ (req.is_initial_response = true
        ∧ (resolve_city (extract_prefs_stage sv req)
            (sv.extract_location_from_query req.message)).2 = false) := by
      rw [hrc]
      rintro ⟨-, h⟩
      exact absurd h (by simp)
    rw [public_chat_after_trial sv user_id req hown hgate,
      after_trial_main sv user_id req hnc, hrc]
    refine List.mem_append_right _ ?_
    exact fetch_mem_main_stage sv user_id req _ _ _ _ _
  · intro q hbind hq2 hqne
    have hrc : resolve_city (extract_prefs_stage sv req)
        (sv.extract_location_from_query req.message)
        = (some (py_lower q), true) := by
      rw [hq2]
      exact resolve_city_query hbind hqne
    have hnc : ¬ (req.is_initial_response = true
        ∧ (resolve_city (extract_prefs_stage sv req)
            (sv.extract_location_from_query req.message)).2 = false) := by
      rw [hrc]
      rintro ⟨-, h⟩
      exact absurd h (by simp)
    rw [public_chat_after_trial sv user_id req hown hgate,
      after_trial_main sv user_id req hnc, hrc]
    refine List.mem_append_right _ ?_
    exact fetch_mem_main_stage sv user_id req _ _ _ _ _
  · intro hninit hq
    have hprefs : extract_prefs_stage sv req = none := by
      simp [extract_prefs_stage, hninit]
    have hrc : resolve_city (extract_prefs_stage sv req)
        (sv.extract_location_from_query req.message) = (none, false) := by
      rw [hprefs]
      exact resolve_city_none rfl hq
    have hnc : ¬ (req.is_initial_response = true
        ∧ (resolve_city (extract_prefs_stage sv req)
            (sv.extract_location_from_query req.message)).2 = false) := by
      rintro ⟨h1, -⟩
      rw [hninit] at h1
      exact absurd h1 (by simp)
    constructor
    · rw [public_chat_after_trial sv user_id req hown hgate,
        after_trial_main sv user_id req hnc, hrc]
      refine List.mem_append_right _ ?_
      exact fetch_mem_main_stage sv user_id req _ _ _ _ _
    · intro corpus hac
      have hres : (public_chat sv user_id req).1
          = ChatResult.ok
            { message := response_message
                (sv.intelligent_event_search req.message corpus.1 none).length
                ("new york") default_location_note
              recommendations := (sv.intelligent_event_search req.message
                corpus.1 none).map
                (format_recommendation corpus.2.1 ("new york"))
              llm_provider_used := req.llm_provider
              cache_used := corpus.2.1
              cache_age_hours := corpus.2.2
              extracted_preferences := none
              extraction_summary := none
              usage_stats := (usage_effects sv user_id).1
              trial_exceeded := false
              conversation_id := (materialize_conversation sv user_id
                req.conversation_id req.llm_provider).1 } := by
        rw [public_chat_after_trial sv user_id req hown hgate,
          after_trial_main sv user_id req hnc, hrc, hprefs,
          main_stage_resp sv user_id req _ _ none
            (((none : Option String), false).1) (((none : Option String), false).2)
            corpus hac]
        rfl
      exact ⟨_, _, hres, rfl⟩

/-- Witness for C6: an initial turn with extracted location `"Paris"`
resolves city `"paris"` and the corpus is fetched for it. -/
theorem c6_city_resolution_witness :
    Effect.fetch_events (py_lower ("Paris"))
        ∈ (public_chat services_paris ("alice") sample_request_initial).2
    ∧ py_lower ("Paris") = ("paris") :=
  ⟨(c6_city_resolution services_paris ("alice") sample_request_initial
      rfl (by decide)).1 ("Paris") rfl rfl (by decide) (by decide),
   by decide⟩

/-- C7 states the intent of the spec, but the code crashes in the
age-null-with-events case of the claim: with truthy cached events and a
`None` cache age (the spec-sanctioned same-turn synchronous fetch, which
the claim says counts as `cache_used = false`), line 208 formats `None` with
`:.1f` and raises `TypeError`, mapped to a 500 by the outer handler —
the `is not None` guard on line 210 never runs there.  The theorem
evaluates the embedding at the failing input, and shows the remaining
cases behave as the claim states: no events at all gives
`cache_used = false` with a null reported age, and events with age 2.5
give `cache_used = true` with that age. -/
theorem c7_cache_age_none_bug :
    acquire_corpus services_sync_fetch ("new york") = Except.error ()
    ∧ (public_chat services_sync_fetch ("alice") sample_request).1
        = ChatResult.httpError 500 internal_error_detail
    ∧ acquire_corpus sample_services ("new york")
        = Except.ok ([], false, none)
    ∧ acquire_corpus services_cache ("new york")
        = Except.ok ([⟨some ("show"), some 1⟩], true, some (5/2 : ℚ)) := by
  refine ⟨rfl, by decide, rfl, ?_⟩
  simp only [acquire_corpus, services_cache, sample_services, pyListTruthy]
  norm_num

/-- C10 as stated is false: pydantic only requires the `message` field to
be present, not non-empty — a request with `message = ""` passes
validation and the turn runs the full pipeline, writing two transcript
messages and invoking the search. -/
theorem c10_empty_message_cex :
    parse_chat_request (some ("")) none none none none none
        = Except.ok request_empty_message
    ∧ request_empty_message.message = ("")
    ∧ ((public_chat sample_services ("alice") request_empty_message).2.filter
        is_transcript_write).length = 2
    ∧ ((public_chat sample_services ("alice") request_empty_message).2.filter
        is_search_call) ≠ [] :=
  ⟨rfl, rfl, by decide, by decide⟩

/-- C10 amended: the interface requires the `message` field to be present
(a request without it fails validation), but does not require it to be
non-empty: any string, including the empty one, is accepted. -/
theorem c10_message_required :
    parse_chat_request none none none none none none
        = Except.error ("field required: message")
    ∧ (∀ (m : String) conversation_history llm_provider user_preferences
        is_initial_response conversation_id,
        parse_chat_request (some m) conversation_history llm_provider
            user_preferences is_initial_response conversation_id
          = Except.ok
            { message := m
              conversation_history := conversation_history.getD []
              llm_provider := llm_provider.getD ("openai")
              user_preferences := user_preferences.getD none
              is_initial_response := is_initial_response.getD false
              conversation_id := conversation_id.getD none }) :=
  ⟨rfl, fun _ _ _ _ _ _ => rfl⟩

end LocalLife
